import Mathlib

/-!
Verification development for the TinyVault bot interaction engine.

The Python source (app/services/telegram_service.py, app/services/item_service.py,
app/repositories/item_repository.py, app/repositories/user_repository.py,
app/models.py) is shallowly embedded below.  Python strings are embedded as
`List Char` (`Chars`); the database session becomes an explicit `Db` value; the
process-wide mutable containers of `TelegramService` become fields of `BotState`;
`async` methods become pure state-passing functions; exceptions become
`Except String`.  SQL timestamps (`func.current_timestamp()`) are abstract clock
ticks (`Nat`), incremented on every write, and `strftime` rendering of a tick is
its decimal form.  The unbounded random draw loop of `_generate_unique_short_code`
is embedded with an explicit stream of candidate draws.
-/

set_option maxRecDepth 10000

namespace TinyVault

/-- Python `str`, embedded as its list of characters. -/
abbrev Chars := List Char

/-- Coerce a Lean string literal to the `Chars` embedding. -/
def pystr (s : String) : Chars := s.data

/-- Python whitespace test used by `str.strip` / `str.split`. -/
def isPyWs (c : Char) : Bool :=
  c = ' ' || c = '\t' || c = '\n' || c = '\x0d' || c = '\x0b' || c = '\x0c'

/-- Python `str.strip()`: drop whitespace from both ends. -/
def pyStrip (s : Chars) : Chars :=
  ((s.dropWhile isPyWs).reverse.dropWhile isPyWs).reverse

/-- Python `str.split()` with no argument: split on whitespace runs, no empty parts. -/
def pySplitWs (s : Chars) : List Chars :=
  (List.splitOnP isPyWs s).filter (fun p => !p.isEmpty)

/-- Python `str.split(sep)` for a one-character separator (keeps empty parts). -/
def splitOnChar (c : Char) (s : Chars) : List Chars :=
  List.splitOnP (fun d => d = c) s

/-- Python `str.startswith(p)`. -/
def pyStartsWith (s p : Chars) : Bool := List.isPrefixOf p s

/-- Python `str.lower()` (ASCII case fold, all that the sources feed it). -/
def pyLower (s : Chars) : Chars := s.map Char.toLower

/-- Python `str.title()` applied to the single-word kind values `url` / `note`:
uppercase the first letter, lowercase the rest. -/
def pyTitle (s : Chars) : Chars :=
  match s with
  | [] => []
  | c :: rest => Char.toUpper c :: rest.map Char.toLower

/-- Decimal digits of a natural number (auxiliary, fuelled by the number itself). -/
def natDigits : Nat → Nat → Chars
  | 0, _ => []
  | _ + 1, 0 => []
  | fuel + 1, n => natDigits fuel (n / 10) ++ [Nat.digitChar (n % 10)]

/-- Render a natural number in decimal, as Python `str(n)` / f-string interpolation. -/
def natToStr (n : Nat) : Chars :=
  if n = 0 then pystr "0" else natDigits (n + 1) n

/-- Render an integer in decimal. -/
def intToStr (i : Int) : Chars :=
  if i < 0 then '-' :: natToStr i.natAbs else natToStr i.natAbs

/-- Accumulate decimal digit characters into a number. -/
def digitsToNat (s : Chars) : Nat :=
  s.foldl (fun a c => a * 10 + (c.toNat - 48)) 0

/-- Python `int(s)`: optional surrounding whitespace, optional sign, at least one
digit; anything else raises `ValueError`, embedded as `none`. -/
def pyParseInt (s : Chars) : Option Int :=
  let t := pyStrip s
  let signed : Int × Chars :=
    match t with
    | '-' :: r => (-1, r)
    | '+' :: r => (1, r)
    | r => (1, r)
  if !signed.2.isEmpty && signed.2.all Char.isDigit then
    some (signed.1 * (digitsToNat signed.2 : Int))
  else
    none

/-- Assoc-list update modelling Python `dict[k] = v`. -/
def dictSet {α : Type} (l : List (Nat × α)) (k : Nat) (v : α) : List (Nat × α) :=
  match l with
  | [] => [(k, v)]
  | (k', v') :: r => if k' = k then (k, v) :: r else (k', v') :: dictSet r k v

/-- Assoc-list lookup modelling Python `dict.get` / `k in dict`. -/
def dictGet {α : Type} (l : List (Nat × α)) (k : Nat) : Option α :=
  match l with
  | [] => none
  | (k', v) :: r => if k' = k then some v else dictGet r k

/-- Assoc-list removal modelling Python `del dict[k]`. -/
def dictRemove {α : Type} (l : List (Nat × α)) (k : Nat) : List (Nat × α) :=
  l.filter (fun p => p.1 ≠ k)

/-! ## Data model (app/models.py) -/

/-- `User` row: internal id, Telegram id, first/last-seen ticks. -/
structure UserRow where
  id : Nat
  telegram_user_id : Nat
  first_seen_at : Nat
  last_seen_at : Nat
deriving DecidableEq

/-- `Item` row: internal id, owner internal id, short code, kind, content,
creation tick, optional soft-delete tick. -/
structure ItemRow where
  id : Nat
  owner_user_id : Nat
  short_code : Chars
  kind : Chars
  content : Chars
  created_at : Nat
  deleted_at : Option Nat
deriving DecidableEq

/-- The database session: both tables, autoincrement counters, and the clock
that stands in for `func.current_timestamp()`. -/
structure Db where
  users : List UserRow
  items : List ItemRow
  next_user_id : Nat
  next_item_id : Nat
  clock : Nat
deriving DecidableEq

/-! ## ItemRepository (app/repositories/item_repository.py) -/

/-- `ItemRepository.get_by_short_code`: first row with this code and
`deleted_at IS NULL` (`scalar_one_or_none`). -/
def get_by_short_code (db : Db) (code : Chars) : Option ItemRow :=
  db.items.find? (fun i => i.short_code = code && i.deleted_at = none)

/-- Descending insertion by `created_at` (stable), embedding `ORDER BY created_at DESC`. -/
def insertDesc (i : ItemRow) : List ItemRow → List ItemRow
  | [] => [i]
  | j :: rest => if j.created_at < i.created_at then i :: j :: rest else j :: insertDesc i rest

/-- Sort rows by `created_at` descending. -/
def sortByCreatedDesc : List ItemRow → List ItemRow
  | [] => []
  | i :: rest => insertDesc i (sortByCreatedDesc rest)

/-- `ItemRepository.get_by_owner_id`: non-deleted rows of this owner, newest
first, at most `limit`. -/
def get_by_owner_id (db : Db) (owner : Nat) (limit : Nat) : List ItemRow :=
  (sortByCreatedDesc (db.items.filter
    (fun i => i.owner_user_id = owner && i.deleted_at = none))).take limit

/-- `ItemRepository.create_item` (via `BaseRepository.create`): insert a fresh row. -/
def repo_create_item (db : Db) (owner : Nat) (code kind content : Chars) : ItemRow × Db :=
  let item : ItemRow :=
    { id := db.next_item_id
      owner_user_id := owner
      short_code := code
      kind := kind
      content := content
      created_at := db.clock
      deleted_at := none }
  (item, { db with
            items := db.items ++ [item]
            next_item_id := db.next_item_id + 1
            clock := db.clock + 1 })

/-- `ItemRepository.soft_delete`: stamp `deleted_at` on every row matching code,
owner and `deleted_at IS NULL`; report whether any row was touched. -/
def soft_delete (db : Db) (code : Chars) (owner : Nat) : Bool × Db :=
  let hit : ItemRow → Bool :=
    fun i => i.short_code = code && i.owner_user_id = owner && i.deleted_at = none
  let touched := db.items.any hit
  (touched,
   { db with
      items := db.items.map (fun i => if hit i then { i with deleted_at := some db.clock } else i)
      clock := db.clock + 1 })

/-- `ItemRepository.is_short_code_available`: no row with this code and
`deleted_at IS NULL` exists.  (Soft-deleted rows are NOT consulted.) -/
def is_short_code_available (db : Db) (code : Chars) : Bool :=
  (db.items.find? (fun i => i.short_code = code && i.deleted_at = none)).isNone

/-- `ItemRepository.get_item_stats`: per-owner counts over non-deleted rows. -/
structure ItemStats where
  total : Nat
  urls : Nat
  notes : Nat
deriving DecidableEq

/-- Count total / url / note rows of an owner, excluding soft-deleted ones. -/
def get_item_stats (db : Db) (owner : Nat) : ItemStats :=
  let live := db.items.filter (fun i => i.owner_user_id = owner && i.deleted_at = none)
  { total := live.length
    urls := (live.filter (fun i => i.kind = pystr "url")).length
    notes := (live.filter (fun i => i.kind = pystr "note")).length }

/-! ## UserRepository (app/repositories/user_repository.py) -/

/-- `UserRepository.get_by_telegram_id`. -/
def get_by_telegram_id (db : Db) (tid : Nat) : Option UserRow :=
  db.users.find? (fun u => u.telegram_user_id = tid)

/-- `UserRepository.create_or_update_user`: create the user on first sight,
otherwise refresh `last_seen_at`. -/
def create_or_update_user (db : Db) (tid : Nat) : UserRow × Db :=
  match get_by_telegram_id db tid with
  | some u =>
      let u' := { u with last_seen_at := db.clock }
      (u', { db with
              users := db.users.map (fun v => if v.telegram_user_id = tid then u' else v)
              clock := db.clock + 1 })
  | none =>
      let u : UserRow :=
        { id := db.next_user_id
          telegram_user_id := tid
          first_seen_at := db.clock
          last_seen_at := db.clock }
      (u, { db with
             users := db.users ++ [u]
             next_user_id := db.next_user_id + 1
             clock := db.clock + 1 })

/-! ## ItemService (app/services/item_service.py) -/

/-- The known top-level suffixes of the bare-domain pattern
`^[a-zA-Z0-9-]+\.(com|org|net|io|co|me|dev)$`. -/
def domainSuffixes : List Chars :=
  [pystr "com", pystr "org", pystr "net", pystr "io", pystr "co", pystr "me", pystr "dev"]

/-- Character class `[a-zA-Z0-9-]` of the bare-domain pattern. -/
def isLabelChar (c : Char) : Bool := c.isAlpha || c.isDigit || c = '-'

/-- Full match of `^[a-zA-Z0-9-]+\.(com|org|net|io|co|me|dev)$`: a non-empty
label (which cannot contain a dot), a dot, then exactly one known suffix. -/
def matchesBareDomain (t : Chars) : Bool :=
  let label := t.takeWhile isLabelChar
  let rest := t.drop label.length
  !label.isEmpty && domainSuffixes.any (fun s => rest = '.' :: s)

/-- `ItemService._detect_content_kind`: try, in order, the `http(s)://` prefix,
the `www.` prefix and the bare-domain pattern on the stripped content; the first
match gives `url`, no match gives `note`. -/
def detect_content_kind (content : Chars) : Chars :=
  let t := pyStrip content
  if pyStartsWith t (pystr "http://") || pyStartsWith t (pystr "https://") then pystr "url"
  else if pyStartsWith t (pystr "www.") then pystr "url"
  else if matchesBareDomain t then pystr "url"
  else pystr "note"

/-- Regex label `[A-Z0-9](?:[A-Z0-9-]{0,61}[A-Z0-9])?` (case-insensitive). -/
def isUrlHostLabel (s : Chars) : Bool :=
  match s with
  | [] => false
  | [c] => c.isAlphanum
  | c :: rest =>
      c.isAlphanum && rest.length ≤ 62 && (rest.getLast?.elim false Char.isAlphanum) &&
        (rest.dropLast.all (fun d => d.isAlphanum || d = '-'))

/-- Regex alternative `(?:LABEL\.)+[A-Z]{2,6}\.?` of `_is_valid_url`. -/
def isUrlDomain (s : Chars) : Bool :=
  let parts := splitOnChar '.' s
  let core := if parts.getLast? = some [] then parts.dropLast else parts
  core.length ≥ 2 &&
    core.dropLast.all isUrlHostLabel &&
    (core.getLast?.elim false (fun tld =>
      2 ≤ tld.length && tld.length ≤ 6 && tld.all Char.isAlpha))

/-- Regex alternative `\d{1,3}\.\d{1,3}\.\d{1,3}\.\d{1,3}` of `_is_valid_url`. -/
def isUrlIp (s : Chars) : Bool :=
  let parts := splitOnChar '.' s
  parts.length = 4 &&
    parts.all (fun p => 1 ≤ p.length && p.length ≤ 3 && p.all Char.isDigit)

/-- Host part of the URL regex: domain, `localhost`, or dotted IP. -/
def isUrlHost (s : Chars) : Bool :=
  isUrlDomain s || s = pystr "localhost" || isUrlIp s

/-- Trailing part `(?:/?|[/?]\S+)$` of the URL regex. -/
def isUrlTail (s : Chars) : Bool :=
  s.isEmpty || s = pystr "/" ||
    (match s with
     | c :: rest => (c = '/' || c = '?') && !rest.isEmpty && rest.all (fun d => !isPyWs d)
     | [] => false)

/-- Optional port plus tail, `(?::\d+)?(?:/?|[/?]\S+)$`: enumerate how many
digit characters the port consumes. -/
def isUrlPortTail (s : Chars) : Bool :=
  isUrlTail s ||
    (match s with
     | ':' :: rest =>
        (List.range rest.length).any (fun j =>
          let d := rest.take (j + 1)
          d.all Char.isDigit && isUrlTail (rest.drop (j + 1)))
     | _ => false)

/-- `ItemService._is_valid_url`: the anchored regex
`^https?://HOST(?::\d+)?(?:/?|[/?]\S+)$`, matched by enumerating the split
between host and the rest. -/
def is_valid_url (url : Chars) : Bool :=
  let afterScheme : Option Chars :=
    if pyStartsWith url (pystr "https://") then some (url.drop 8)
    else if pyStartsWith url (pystr "http://") then some (url.drop 7)
    else none
  match afterScheme with
  | none => false
  | some rest =>
      (List.range (rest.length + 1)).any (fun i =>
        isUrlHost (rest.take i) && isUrlPortTail (rest.drop i))

/-- Result shape of `ItemService.validate_item_content`. -/
structure ValidationResult where
  valid : Bool
  errors : List Chars
deriving DecidableEq

/-- `ItemService.validate_item_content`: empty check, URL-shape check when the
kind is explicitly `url`, and the 10 000-character length cap.  (Python
`len(content)` counts characters.) -/
def validate_item_content (content : Chars) (kind : Option Chars) : ValidationResult :=
  let errors : List Chars := []
  let errors := if content.isEmpty || (pyStrip content).isEmpty
    then errors ++ [pystr "Content cannot be empty"] else errors
  let errors := if kind = some (pystr "url") && !is_valid_url content
    then errors ++ [pystr "Invalid URL format"] else errors
  let errors := if content.length > 10000
    then errors ++ [pystr "Content too long (max 10KB)"] else errors
  { valid := errors.isEmpty, errors := errors }

/-- `ItemService._generate_unique_short_code`: the `while True` loop over fresh
random 6-character draws, embedded over an explicit stream of draws; the first
draw the store reports available is returned, exhaustion of the stream is `none`. -/
def generate_unique_short_code (db : Db) : List Chars → Option Chars
  | [] => none
  | c :: rest =>
      if is_short_code_available db c then some c else generate_unique_short_code db rest

/-- `ItemService.create_item`: auto-detect the kind when none is given, draw a
unique short code, insert the row. -/
def create_item (db : Db) (rng : List Chars) (owner : Nat) (content : Chars)
    (kind : Option Chars) : Option (ItemRow × Db) :=
  let kind := kind.getD (detect_content_kind content)
  match generate_unique_short_code db rng with
  | none => none
  | some code => some (repo_create_item db owner code kind content)

/-- `ItemService.get_item_by_short_code`. -/
def get_item_by_short_code (db : Db) (code : Chars) : Option ItemRow :=
  get_by_short_code db code

/-- `ItemService.delete_item`. -/
def delete_item (db : Db) (code : Chars) (owner : Nat) : Bool × Db :=
  soft_delete db code owner

/-- `ItemService.get_user_items`. -/
def get_user_items (db : Db) (owner : Nat) (limit : Nat) : List ItemRow :=
  get_by_owner_id db owner limit

end TinyVault

namespace TinyVault

/-! ## TelegramService state (app/services/telegram_service.py, constructor) -/

/-- An inline keyboard button: display text plus opaque callback payload. -/
structure Button where
  text : Chars
  callback_data : Chars
deriving DecidableEq

/-- `InlineKeyboardMarkup`: a 2-D button layout. -/
abbrev Keyboard := List (List Button)

/-- A handler result dict: response text plus optional keyboard. -/
structure Reply where
  text : Chars
  keyboard : Option Keyboard
deriving DecidableEq

/-- The free-form `data` dict attached to a conversation state; the sources only
ever use the keys `action`, `item_code`, `items` and `page`. -/
structure StateData where
  action : Option Chars := none
  item_code : Option Chars := none
  items : Option (List Chars) := none
  page : Option Int := none
deriving DecidableEq

/-- One entry of `_user_states`: state tag plus data dict. -/
structure UserState where
  state : Chars
  data : StateData
deriving DecidableEq

/-- The process-wide mutable state of `TelegramService`: the database session,
the `_processed_updates` set (embedded as its insertion-ordered enumeration),
the `_user_states` dict, the stream of random short-code draws, and a switch
that makes the user store raise (modelling `StoreUnavailable`). -/
structure BotState where
  db : Db
  processed_updates : List Nat
  user_states : List (Nat × UserState)
  rng : List Chars
  store_fails : Bool
deriving DecidableEq

/-- `self._cleanup_threshold`. -/
def cleanup_threshold : Nat := 1000

/-- `TelegramService._cleanup_old_updates`: once the set holds more than the
threshold, keep only `list(set)[-500:]`, the last 500 entries in enumeration
order. -/
def cleanup_old_updates (st : BotState) : BotState :=
  if st.processed_updates.length > cleanup_threshold then
    { st with processed_updates :=
        st.processed_updates.drop (st.processed_updates.length - 500) }
  else st

/-- `TelegramService._is_update_processed`: membership test, with the periodic
cleanup run only on the not-yet-processed branch. -/
def is_update_processed (st : BotState) (update_id : Nat) : Bool × BotState :=
  if st.processed_updates.contains update_id then (true, st)
  else if st.processed_updates.length > cleanup_threshold then (false, cleanup_old_updates st)
  else (false, st)

/-- `self._processed_updates.add(update_id)` (set insertion). -/
def add_processed (st : BotState) (update_id : Nat) : BotState :=
  if st.processed_updates.contains update_id then st
  else { st with processed_updates := st.processed_updates ++ [update_id] }

/-- `TelegramService._get_user_state`: return the entry, materializing (and
storing) the `idle` default when absent. -/
def get_user_state (st : BotState) (uid : Nat) : UserState × BotState :=
  match dictGet st.user_states uid with
  | some s => (s, st)
  | none =>
      let s : UserState := { state := pystr "idle", data := {} }
      (s, { st with user_states := dictSet st.user_states uid s })

/-- `TelegramService._set_user_state`: overwrite tag and data as a unit. -/
def set_user_state (st : BotState) (uid : Nat) (state : Chars) (data : StateData) : BotState :=
  { st with user_states := dictSet st.user_states uid { state := state, data := data } }

/-- `TelegramService._clear_user_state`: drop the entry. -/
def clear_user_state (st : BotState) (uid : Nat) : BotState :=
  { st with user_states := dictRemove st.user_states uid }

/-! ## Keyboards and fixed texts -/

/-- `_create_main_menu_keyboard`. -/
def main_menu_keyboard : Keyboard :=
  [[⟨pystr "📝 Save Item", pystr "save_item"⟩, ⟨pystr "📋 My Items", pystr "list_items"⟩],
   [⟨pystr "🔍 Get Item", pystr "get_item"⟩, ⟨pystr "🗑️ Delete Item", pystr "delete_item"⟩],
   [⟨pystr "📊 Statistics", pystr "stats"⟩, ⟨pystr "❓ Help", pystr "help"⟩]]

/-- `_create_confirm_keyboard`. -/
def confirm_keyboard (action : Chars) (item_id : Option Chars) : Keyboard :=
  let cb := pystr "confirm_" ++ action ++ (match item_id with
    | some i => '_' :: i
    | none => [])
  [[⟨pystr "✅ Yes", cb⟩, ⟨pystr "❌ No", pystr "cancel_action"⟩]]

/-- `_create_item_list_keyboard` at 5 items per page: per-item buttons with a
30-character content preview, navigation buttons when applicable, and the
return-to-menu button. -/
def item_list_keyboard (items : List ItemRow) (page : Nat) : Keyboard :=
  let items_per_page := 5
  let start_idx := page * items_per_page
  let end_idx := start_idx + items_per_page
  let page_items := (items.drop start_idx).take items_per_page
  let itemRows := page_items.map (fun item =>
    let preview := if item.content.length > 30
      then item.content.take 30 ++ pystr "..." else item.content
    [Button.mk (pystr "🔗 " ++ item.short_code ++ pystr " - " ++ preview)
      (pystr "view_item_" ++ item.short_code)])
  let navRow :=
    (if page > 0 then [Button.mk (pystr "⬅️ Previous") (pystr "page_" ++ natToStr (page - 1))] else []) ++
    (if end_idx < items.length then [Button.mk (pystr "Next ➡️") (pystr "page_" ++ natToStr (page + 1))] else [])
  itemRows ++ (if navRow.isEmpty then [] else [navRow]) ++
    [[Button.mk (pystr "🔙 Back to Menu") (pystr "main_menu")]]

/-- The `str(e)` text of the exception the user store raises when unavailable. -/
def store_error_text : Chars := pystr "store unavailable"

/-- The `str(e)` text of the `ValueError` raised by `int()` on a bad literal. -/
def invalid_int_text : Chars := pystr "invalid literal for int()"

/-- The modelled `str(e)` when the short-code candidate stream is exhausted
(impossible in the source, whose retry loop is unbounded). -/
def gen_exhausted_text : Chars := pystr "short code candidates exhausted"

/-- "please use /start first" reply text. -/
def start_first_text : Chars := pystr "❌ Please use /start first to initialize your account."

/-- `/get` and `/del` not-found reply text (echoes the requested code). -/
def not_found_text (code : Chars) : Chars :=
  pystr "❌ Item with code `" ++ code ++ pystr "` not found."

/-- `/get` ownership-denial reply text. -/
def no_get_permission_text : Chars :=
  pystr "❌ You don\x27t have permission to access this item."

/-- `/del` ownership-denial reply text. -/
def no_delete_permission_text : Chars :=
  pystr "❌ You don\x27t have permission to delete this item."

/-- Rendering of a timestamp tick, standing in for `strftime`. -/
def format_ts (t : Nat) : Chars := natToStr t

/-- Item-detail reply text of `/get` (and of the `waiting_for_code` dialog). -/
def item_detail_text (item : ItemRow) : Chars :=
  pystr "📋 Item Details\n\n🔗 Short Code: `" ++ item.short_code ++
  pystr "`\n📂 Type: " ++ pyTitle item.kind ++
  pystr "\n📅 Created: " ++ format_ts item.created_at ++
  pystr "\n\n📝 Content:\n" ++ item.content

/-- Delete/copy action keyboard shown with item details. -/
def item_action_keyboard (code : Chars) : Keyboard :=
  [[Button.mk (pystr "🗑️ Delete") (pystr "delete_item_" ++ code),
    Button.mk (pystr "📋 Copy Code") (pystr "copy_code_" ++ code)],
   [Button.mk (pystr "🔙 Back to Menu") (pystr "main_menu")]]

/-- Success reply text of a save (command or dialog path). -/
def save_success_text (content : Chars) (item : ItemRow) : Chars :=
  pystr "✅ Item saved successfully!\n\n📝 Content: " ++ content.take 100 ++
  (if content.length > 100 then pystr "..." else []) ++
  pystr "\n🔗 Short Code: `" ++ item.short_code ++
  pystr "`\n📂 Type: " ++ pyTitle item.kind ++
  pystr "\n\nUse `/get " ++ item.short_code ++ pystr "` to retrieve it later!"

/-- Delete-confirmation reply text (the echoed code is the raw argument). -/
def delete_confirm_text (short_code : Chars) (item : ItemRow) : Chars :=
  pystr "⚠️ Delete Confirmation\n\nAre you sure you want to delete item `" ++ short_code ++
  pystr "`?\n\n📝 Content: " ++ item.content.take 100 ++
  (if item.content.length > 100 then pystr "..." else []) ++
  pystr "\n\nThis action cannot be undone."

/-- `handle_unknown_command` reply text. -/
def unknown_command_text : Chars :=
  pystr "❓ Unknown command. Here are some helpful options:\n\nAvailable commands:\n• /start - Initialize your account\n• /help - Show help message\n• /menu - Show main menu\n• /cancel - Cancel current operation"

/-- `/help` reply text. -/
def help_text : Chars :=
  pystr "📚 TinyVault Help\n\nAvailable commands:\n• /start - Show main menu\n• /help - Show this help message\n• /menu - Show main menu\n• /cancel - Cancel current operation\n\nUse the interactive menu below to navigate easily!"

/-- Fallback reply text of the dialog engine (`idle` and unknown tags). -/
def default_text_reply : Chars :=
  pystr "💬 I received your message, but I\x27m not sure what you\x27d like me to do.\n\nUse /start to see the main menu or /help for available commands."

/-- Generic handler-level error text of the callback router. -/
def callback_error_text : Chars := pystr "❌ An error occurred. Back to main menu:"

/-- Default reply text for an unrecognized callback payload. -/
def unknown_action_text : Chars := pystr "❓ Unknown action. Back to main menu:"

end TinyVault

namespace TinyVault

/-! ## Command handlers (app/services/telegram_service.py) -/

/-- `TelegramService._validate_command_args`: uniform minimum/maximum argument
count check with generic usage errors. -/
def validate_command_args (args : List Chars) (min_args : Nat) (max_args : Option Nat) :
    Bool × Chars :=
  if args.length < min_args then
    (false, pystr "❌ Too few arguments. Expected at least " ++ natToStr min_args ++ pystr ".")
  else
    match max_args with
    | some m =>
        if args.length > m then
          (false, pystr "❌ Too many arguments. Expected at most " ++ natToStr m ++ pystr ".")
        else (true, [])
    | none => (true, [])

/-- `TelegramService._get_user_from_update`: look the caller up, catching a
store failure as the generic retrieval-error text. -/
def get_user_from_update (st : BotState) (tid : Nat) : Bool × Chars × Option UserRow :=
  if st.store_fails then (false, pystr "❌ Error retrieving user information.", none)
  else
    match get_by_telegram_id st.db tid with
    | none => (false, start_first_text, none)
    | some u => (true, [], some u)

/-- `handle_start_command`: touch/create the user (the user store may raise),
clear the conversation state, return the welcome text with the main menu. -/
def handle_start_command (st : BotState) (tid : Nat) : Except Chars (Reply × BotState) :=
  if st.store_fails then .error store_error_text
  else
    let ud := create_or_update_user st.db tid
    let st1 := clear_user_state { st with db := ud.2 } tid
    .ok ({ text := pystr "👋 Welcome to TinyVault!\n\nYour user ID: " ++ natToStr ud.1.id ++
                   pystr "\n\nChoose an action from the menu below:",
           keyboard := some main_menu_keyboard }, st1)

/-- `handle_help_command`: static help text with the main menu. -/
def handle_help_command (st : BotState) : Reply × BotState :=
  ({ text := help_text, keyboard := some main_menu_keyboard }, st)

/-- `handle_menu_command`: requires a known user (the lookup may raise), clears
state and shows the main menu; unknown users get the start-first text with no
keyboard. -/
def handle_menu_command (st : BotState) (tid : Nat) : Except Chars (Reply × BotState) :=
  if st.store_fails then .error store_error_text
  else
    match get_by_telegram_id st.db tid with
    | none => .ok ({ text := start_first_text, keyboard := none }, st)
    | some _ =>
        .ok ({ text := pystr "🏠 Main Menu\n\nChoose an action:",
               keyboard := some main_menu_keyboard }, clear_user_state st tid)

/-- `handle_cancel_command`: requires a known user, clears state. -/
def handle_cancel_command (st : BotState) (tid : Nat) : Except Chars (Reply × BotState) :=
  if st.store_fails then .error store_error_text
  else
    match get_by_telegram_id st.db tid with
    | none => .ok ({ text := start_first_text, keyboard := none }, st)
    | some _ =>
        .ok ({ text := pystr "❌ Operation cancelled. Back to main menu:",
               keyboard := some main_menu_keyboard }, clear_user_state st tid)

/-- `handle_save_command`: argument check, join arguments with spaces, touch the
user (may raise), validate the content, create the item. -/
def handle_save_command (st : BotState) (tid : Nat) (args : List Chars) :
    Except Chars (Reply × BotState) :=
  let v := validate_command_args args 1 none
  if !v.1 then .ok ({ text := v.2, keyboard := some main_menu_keyboard }, st)
  else
    let content := List.intercalate (pystr " ") args
    if st.store_fails then .error store_error_text
    else
      let ud := create_or_update_user st.db tid
      let st1 := { st with db := ud.2 }
      let validation := validate_item_content content none
      if !validation.valid then
        .ok ({ text := pystr "❌ Validation failed: " ++
                       List.intercalate (pystr ", ") validation.errors,
               keyboard := some main_menu_keyboard }, st1)
      else
        match create_item st1.db st1.rng ud.1.id content none with
        | some (item, db') =>
            .ok ({ text := save_success_text content item,
                   keyboard := some main_menu_keyboard }, { st1 with db := db' })
        | none =>
            .ok ({ text := pystr "❌ Failed to save item: " ++ gen_exhausted_text,
                   keyboard := some main_menu_keyboard }, st1)

/-- `handle_list_command`: fetch up to 50 newest live items, store the code list
and page 0 under the caller's INTERNAL id (as the source does), return the
paginated layout. -/
def handle_list_command (st : BotState) (tid : Nat) : Reply × BotState :=
  match get_user_from_update st tid with
  | (_, err, none) => ({ text := err, keyboard := some main_menu_keyboard }, st)
  | (_, _, some user) =>
      let items := get_user_items st.db user.id 50
      if items.isEmpty then
        ({ text := pystr "📭 You don\x27t have any saved items yet.\nUse /save <content> to save your first item!",
           keyboard := some main_menu_keyboard }, st)
      else
        let st1 := set_user_state st user.id (pystr "viewing_items")
          { items := some (items.map (fun i => i.short_code)), page := some 0 }
        ({ text := pystr "📋 Your Items (" ++ natToStr items.length ++
                   pystr " total)\n\nPage 1 of " ++ natToStr ((items.length + 4) / 5),
           keyboard := some (item_list_keyboard items 0) }, st1)

/-- `handle_get_command`: exactly one argument, known caller, fetch by code,
ownership check before returning content. -/
def handle_get_command (st : BotState) (tid : Nat) (args : List Chars) : Reply × BotState :=
  let v := validate_command_args args 1 (some 1)
  if !v.1 then ({ text := v.2, keyboard := some main_menu_keyboard }, st)
  else
    let short_code := pyStrip (args.headD [])
    match get_user_from_update st tid with
    | (_, err, none) => ({ text := err, keyboard := some main_menu_keyboard }, st)
    | (_, _, some user) =>
        match get_item_by_short_code st.db short_code with
        | none => ({ text := not_found_text short_code, keyboard := some main_menu_keyboard }, st)
        | some item =>
            if item.owner_user_id ≠ user.id then
              ({ text := no_get_permission_text, keyboard := some main_menu_keyboard }, st)
            else
              ({ text := item_detail_text item,
                 keyboard := some (item_action_keyboard item.short_code) }, st)

/-- `handle_delete_command`: exactly one argument, known caller, existence and
ownership check; does NOT delete, only stores the `confirming_delete` state
(keyed by the caller's internal id, as the source does) and asks for
confirmation. -/
def handle_delete_command (st : BotState) (tid : Nat) (args : List Chars) : Reply × BotState :=
  let v := validate_command_args args 1 (some 1)
  if !v.1 then ({ text := v.2, keyboard := some main_menu_keyboard }, st)
  else
    let short_code := pyStrip (args.headD [])
    match get_user_from_update st tid with
    | (_, err, none) => ({ text := err, keyboard := some main_menu_keyboard }, st)
    | (_, _, some user) =>
        match get_item_by_short_code st.db short_code with
        | none => ({ text := not_found_text short_code, keyboard := some main_menu_keyboard }, st)
        | some item =>
            if item.owner_user_id ≠ user.id then
              ({ text := no_delete_permission_text, keyboard := some main_menu_keyboard }, st)
            else
              let st1 := set_user_state st user.id (pystr "confirming_delete")
                { item_code := some short_code }
              ({ text := delete_confirm_text short_code item,
                 keyboard := some (confirm_keyboard (pystr "delete") (some short_code)) }, st1)

/-- `handle_stats_command`: per-user aggregate counts plus profile dates. -/
def handle_stats_command (st : BotState) (tid : Nat) : Reply × BotState :=
  match get_user_from_update st tid with
  | (_, err, none) => ({ text := err, keyboard := some main_menu_keyboard }, st)
  | (_, _, some user) =>
      let s := get_item_stats st.db user.id
      ({ text := pystr "📊 Your Statistics\n\n👤 User ID: " ++ natToStr user.id ++
                 pystr "\n📅 Member since: " ++ format_ts user.first_seen_at ++
                 pystr "\n🕒 Last seen: " ++ format_ts user.last_seen_at ++
                 pystr "\n\n📦 Items:\n• Total: " ++ natToStr s.total ++
                 pystr "\n• URLs: " ++ natToStr s.urls ++
                 pystr "\n• Notes: " ++ natToStr s.notes,
         keyboard := some
           [[Button.mk (pystr "📋 View All Items") (pystr "list_items"),
             Button.mk (pystr "📝 Save New Item") (pystr "save_item")],
            [Button.mk (pystr "🔙 Back to Menu") (pystr "main_menu")]] }, st)

/-- `handle_unknown_command`. -/
def handle_unknown_command (st : BotState) : Reply × BotState :=
  ({ text := unknown_command_text, keyboard := some main_menu_keyboard }, st)

/-- `TelegramService._process_command`: lower-case token 0, dispatch over the
exact-match table, remaining whitespace-split tokens as arguments. -/
def process_command (st : BotState) (tid : Nat) (text : Chars) :
    Except Chars (Reply × BotState) :=
  let command := pyLower ((pySplitWs text).headD [])
  let args := (pySplitWs text).tail
  if command = pystr "/start" then handle_start_command st tid
  else if command = pystr "/help" then .ok (handle_help_command st)
  else if command = pystr "/menu" then handle_menu_command st tid
  else if command = pystr "/cancel" then handle_cancel_command st tid
  else if command = pystr "/save" then handle_save_command st tid args
  else if command = pystr "/list" then .ok (handle_list_command st tid)
  else if command = pystr "/get" then .ok (handle_get_command st tid args)
  else if command = pystr "/del" then .ok (handle_delete_command st tid args)
  else if command = pystr "/stats" then .ok (handle_stats_command st tid)
  else .ok (handle_unknown_command st)

end TinyVault

namespace TinyVault

/-! ## Dialog engine and callback router -/

/-- `_handle_save_content`: validate, create, clear state ONLY after a
successful creation (the validation-failure and creation-failure paths leave
the conversation state untouched). -/
def handle_save_content (st : BotState) (user : UserRow) (content : Chars) : Reply × BotState :=
  let validation := validate_item_content content none
  if !validation.valid then
    ({ text := pystr "❌ Validation failed: " ++
               List.intercalate (pystr ", ") validation.errors,
       keyboard := some main_menu_keyboard }, st)
  else
    match create_item st.db st.rng user.id content none with
    | some (item, db') =>
        let st1 := clear_user_state { st with db := db' } user.telegram_user_id
        ({ text := save_success_text content item, keyboard := some main_menu_keyboard }, st1)
    | none =>
        ({ text := pystr "❌ Failed to save item: " ++ gen_exhausted_text,
           keyboard := some main_menu_keyboard }, st)

/-- `_handle_get_by_code`: the `/get` logic on a free-text code, clearing the
conversation state on success. -/
def handle_get_by_code (st : BotState) (user : UserRow) (short_code : Chars) : Reply × BotState :=
  match get_item_by_short_code st.db (pyStrip short_code) with
  | none => ({ text := not_found_text short_code, keyboard := some main_menu_keyboard }, st)
  | some item =>
      if item.owner_user_id ≠ user.id then
        ({ text := no_get_permission_text, keyboard := some main_menu_keyboard }, st)
      else
        let st1 := clear_user_state st user.telegram_user_id
        ({ text := item_detail_text item,
           keyboard := some (item_action_keyboard item.short_code) }, st1)

/-- `_handle_delete_by_code`: the `/del` logic on a free-text code, moving to
`confirming_delete` (keyed by the Telegram id here) instead of deleting. -/
def handle_delete_by_code (st : BotState) (user : UserRow) (short_code : Chars) :
    Reply × BotState :=
  match get_item_by_short_code st.db (pyStrip short_code) with
  | none => ({ text := not_found_text short_code, keyboard := some main_menu_keyboard }, st)
  | some item =>
      if item.owner_user_id ≠ user.id then
        ({ text := no_delete_permission_text, keyboard := some main_menu_keyboard }, st)
      else
        let st1 := set_user_state st user.telegram_user_id (pystr "confirming_delete")
          { item_code := some (pyStrip short_code) }
        ({ text := delete_confirm_text short_code item,
           keyboard := some (confirm_keyboard (pystr "delete") (some (pyStrip short_code))) }, st1)

/-- `handle_text_message`: dispatch free text on the caller's conversation
state (materializing the `idle` default first, as `_get_user_state` does); the
user lookup may raise; unknown users get the start-first reply. -/
def handle_text_message (st : BotState) (tid : Nat) (text : Chars) :
    Except Chars (Reply × BotState) :=
  let ss := get_user_state st tid
  let user_state := ss.1
  let st0 := ss.2
  if st0.store_fails then .error store_error_text
  else
    match get_by_telegram_id st0.db tid with
    | none => .ok ({ text := start_first_text, keyboard := some main_menu_keyboard }, st0)
    | some user =>
        if user_state.state = pystr "waiting_for_content" then
          .ok (handle_save_content st0 user text)
        else if user_state.state = pystr "waiting_for_code" then
          .ok (handle_get_by_code st0 user text)
        else if user_state.state = pystr "waiting_for_delete_code" then
          .ok (handle_delete_by_code st0 user text)
        else
          .ok ({ text := default_text_reply, keyboard := some main_menu_keyboard }, st0)

/-- `_confirm_delete_item`: the actual soft delete; on success clear the state
and confirm, otherwise report failure. -/
def confirm_delete_item (st : BotState) (user : UserRow) (short_code : Chars) :
    Reply × BotState :=
  let sd := delete_item st.db short_code user.id
  let st1 := { st with db := sd.2 }
  if sd.1 then
    let st2 := clear_user_state st1 user.telegram_user_id
    ({ text := pystr "✅ Item `" ++ short_code ++ pystr "` has been deleted successfully.",
       keyboard := some main_menu_keyboard }, st2)
  else
    ({ text := pystr "❌ Failed to delete item `" ++ short_code ++
               pystr "`. It may not exist or you don\x27t have permission.",
       keyboard := some main_menu_keyboard }, st1)

/-- `_show_items_page`: re-render the list at the requested page, clamping an
out-of-range page to 0. -/
def show_items_page (st : BotState) (user : UserRow) (page : Int) : Reply × BotState :=
  let items := get_user_items st.db user.id 50
  if items.isEmpty then
    ({ text := pystr "📭 You don\x27t have any saved items yet.",
       keyboard := some main_menu_keyboard }, st)
  else
    let total_pages : Int := ((items.length : Int) + 4) / 5
    let page := if page < 0 || page ≥ total_pages then 0 else page
    let st1 := set_user_state st user.telegram_user_id (pystr "viewing_items")
      { items := some (items.map (fun i => i.short_code)), page := some page }
    ({ text := pystr "📋 Your Items (" ++ natToStr items.length ++
               pystr " total)\n\nPage " ++ intToStr (page + 1) ++
               pystr " of " ++ intToStr total_pages,
       keyboard := some (item_list_keyboard items page.toNat) }, st1)

/-- Python `str.replace(pat, rep)` (replace every occurrence), character-fuelled. -/
def pyReplaceGo (pat rep : Chars) : Nat → Chars → Chars
  | 0, s => s
  | fuel + 1, s =>
      match s with
      | [] => []
      | c :: rest =>
          if !pat.isEmpty && List.isPrefixOf pat s then
            rep ++ pyReplaceGo pat rep fuel (s.drop pat.length)
          else
            c :: pyReplaceGo pat rep fuel rest

/-- Python `s.replace(pat, rep)`. -/
def pyReplace (s pat rep : Chars) : Chars := pyReplaceGo pat rep s.length s

/-- The prompt keyboard with the single Cancel button. -/
def cancel_prompt_keyboard : Keyboard :=
  [[Button.mk (pystr "🔙 Cancel") (pystr "main_menu")]]

/-- The `try:` body of `handle_callback_query`: the chain of exact-match and
prefix branches; the only raising operation is `int()` in the `page_` branch. -/
def handle_callback_query_body (st : BotState) (user : UserRow) (tid : Nat) (payload : Chars) :
    Except Chars (Reply × BotState) :=
  if payload = pystr "main_menu" then
    .ok ({ text := pystr "🏠 Main Menu\n\nChoose an action:",
           keyboard := some main_menu_keyboard }, clear_user_state st tid)
  else if payload = pystr "save_item" then
    .ok ({ text := pystr "📝 Save Item\n\nPlease send me the content you want to save:\n\n• For URLs: Just paste the URL\n• For notes: Type your note\n\nUse /cancel to go back to menu",
           keyboard := some cancel_prompt_keyboard },
         set_user_state st tid (pystr "waiting_for_content") { action := some (pystr "save") })
  else if payload = pystr "list_items" then
    .ok (handle_list_command st tid)
  else if payload = pystr "get_item" then
    .ok ({ text := pystr "🔍 Get Item\n\nPlease send me the short code of the item you want to retrieve.\n\nUse /cancel to go back to menu",
           keyboard := some cancel_prompt_keyboard },
         set_user_state st tid (pystr "waiting_for_code") { action := some (pystr "get") })
  else if payload = pystr "delete_item" then
    .ok ({ text := pystr "🗑️ Delete Item\n\nPlease send me the short code of the item you want to delete.\n\n⚠️ This action cannot be undone!\n\nUse /cancel to go back to menu",
           keyboard := some cancel_prompt_keyboard },
         set_user_state st tid (pystr "waiting_for_delete_code") { action := some (pystr "delete") })
  else if payload = pystr "stats" then
    .ok (handle_stats_command st tid)
  else if payload = pystr "help" then
    .ok (handle_help_command st)
  else if pyStartsWith payload (pystr "view_item_") then
    .ok (handle_get_command st tid [pyReplace payload (pystr "view_item_") []])
  else if pyStartsWith payload (pystr "delete_item_") then
    .ok (handle_delete_command st tid [pyReplace payload (pystr "delete_item_") []])
  else if pyStartsWith payload (pystr "confirm_delete_") then
    .ok (confirm_delete_item st user (pyReplace payload (pystr "confirm_delete_") []))
  else if pyStartsWith payload (pystr "copy_code_") then
    .ok ({ text := pystr "📋 Copy this code: `" ++ pyReplace payload (pystr "copy_code_") [] ++ pystr "`",
           keyboard := some [[Button.mk (pystr "🔙 Back to Menu") (pystr "main_menu")]] }, st)
  else if pyStartsWith payload (pystr "page_") then
    match pyParseInt (pyReplace payload (pystr "page_") []) with
    | none => .error invalid_int_text
    | some page => .ok (show_items_page st user page)
  else if payload = pystr "cancel_action" then
    .ok ({ text := pystr "❌ Action cancelled. Back to main menu:",
           keyboard := some main_menu_keyboard }, clear_user_state st tid)
  else
    .ok ({ text := unknown_action_text, keyboard := some main_menu_keyboard }, st)

/-- `handle_callback_query`: look the caller up (outside the `try:`, so a store
failure propagates), run the branch chain, and catch any error from it as the
generic error reply with the main menu. -/
def handle_callback_query (st : BotState) (tid : Nat) (payload : Chars) :
    Except Chars (Reply × BotState) :=
  if st.store_fails then .error store_error_text
  else
    match get_by_telegram_id st.db tid with
    | none => .ok ({ text := start_first_text, keyboard := none }, st)
    | some user =>
        match handle_callback_query_body st user tid payload with
        | .ok r => .ok r
        | .error _ =>
            .ok ({ text := callback_error_text, keyboard := some main_menu_keyboard }, st)

/-! ## Webhook processor (top level) -/

/-- One inbound message: sender Telegram id, raw text (`message.text or ""`). -/
structure MsgPayload where
  from_id : Nat
  text : Option Chars
deriving DecidableEq

/-- One inbound callback press: sender Telegram id, opaque payload. -/
structure CbPayload where
  from_id : Nat
  data : Chars
deriving DecidableEq

/-- The deserialized update envelope. -/
structure Update where
  update_id : Nat
  message : Option MsgPayload
  callback_query : Option CbPayload
deriving DecidableEq

/-- The structured result dict of `process_webhook_update`; absent dict keys
are `none`. -/
structure ProcessResult where
  status : Chars
  reason : Option Chars := none
  error : Option Chars := none
  rtype : Option Chars := none
  text : Option Chars := none
  command : Option Chars := none
  response_text : Option Chars := none
  callback_data : Option Chars := none
  keyboard : Option Keyboard := none
  user_id : Option Nat := none
  update_id : Option Nat := none
deriving DecidableEq

/-- `_process_callback_query`: touch the user (may raise), run the callback
router, mark the update processed only after routing succeeded; any exception
is caught as a `status=error` result without marking. -/
def process_callback_query (st : BotState) (u : Update) (cb : CbPayload) :
    ProcessResult × BotState :=
  if st.store_fails then
    ({ status := pystr "error", error := some store_error_text,
       update_id := some u.update_id }, st)
  else
    let ud := create_or_update_user st.db cb.from_id
    let st1 := { st with db := ud.2 }
    match handle_callback_query st1 cb.from_id cb.data with
    | .error e =>
        ({ status := pystr "error", error := some e, update_id := some u.update_id }, st1)
    | .ok (reply, st2) =>
        let st3 := add_processed st2 u.update_id
        ({ status := pystr "processed", rtype := some (pystr "callback_query"),
           callback_data := some cb.data, text := some reply.text,
           keyboard := reply.keyboard, user_id := some ud.1.id,
           update_id := some u.update_id }, st3)

/-- `_process_message`: touch the user (may raise), route commands through the
command table and free text through the dialog engine, mark the update
processed only after routing succeeded; any exception is caught as a
`status=error` result without marking. -/
def process_message (st : BotState) (u : Update) (m : MsgPayload) :
    ProcessResult × BotState :=
  let text := m.text.getD []
  if st.store_fails then
    ({ status := pystr "error", error := some store_error_text,
       update_id := some u.update_id }, st)
  else
    let ud := create_or_update_user st.db m.from_id
    let st1 := { st with db := ud.2 }
    let routed :=
      if pyStartsWith text (pystr "/") then process_command st1 m.from_id text
      else handle_text_message st1 m.from_id text
    match routed with
    | .error e =>
        ({ status := pystr "error", error := some e, update_id := some u.update_id }, st1)
    | .ok (reply, st2) =>
        let st3 := add_processed st2 u.update_id
        ({ status := pystr "processed", rtype := some (pystr "message"),
           text := some text,
           command := if pyStartsWith text (pystr "/")
             then some ((pySplitWs text).headD []) else none,
           response_text := some reply.text, keyboard := reply.keyboard,
           user_id := some ud.1.id, update_id := some u.update_id }, st3)

/-- `process_webhook_update`: no-content guard, idempotent replay guard (which
may prune the processed set), then dispatch to the callback or the message
path. -/
def process_webhook_update (st : BotState) (u : Update) : ProcessResult × BotState :=
  if u.message = none && u.callback_query = none then
    ({ status := pystr "ignored",
       reason := some (pystr "No message or callback query in update") }, st)
  else
    let dp := is_update_processed st u.update_id
    if dp.1 then
      ({ status := pystr "ignored", reason := some (pystr "Already processed"),
         update_id := some u.update_id }, dp.2)
    else
      match u.callback_query with
      | some cb => process_callback_query dp.2 u cb
      | none =>
          match u.message with
          | some m => process_message dp.2 u m
          | none =>
              ({ status := pystr "ignored", reason := some (pystr "Unsupported update type"),
                 update_id := some u.update_id }, dp.2)

end TinyVault

namespace TinyVault

/-! ## Concrete fixtures used by witnesses and counterexamples -/

/-- A registered caller (Telegram id 101, internal id 1). -/
def userA : UserRow := { id := 1, telegram_user_id := 101, first_seen_at := 0, last_seen_at := 0 }

/-- A second registered user (Telegram id 202, internal id 2). -/
def userB : UserRow := { id := 2, telegram_user_id := 202, first_seen_at := 0, last_seen_at := 0 }

/-- An item owned by `userB` under short code `abc123`. -/
def itemB : ItemRow :=
  { id := 1, owner_user_id := 2, short_code := pystr "abc123", kind := pystr "note",
    content := pystr "secret", created_at := 0, deleted_at := none }

/-- Store with both users and `userB`'s item. -/
def dbShared : Db :=
  { users := [userA, userB], items := [itemB], next_user_id := 3, next_item_id := 2, clock := 1 }

/-- Engine state over `dbShared`, idle, healthy store, one pending random draw. -/
def stShared : BotState :=
  { db := dbShared, processed_updates := [], user_states := [], rng := [pystr "Ab3xYz"],
    store_fails := false }

/-- Same state with an empty item table. -/
def stNoItems : BotState := { stShared with db := { dbShared with items := [] } }

/-- Store holding only a soft-deleted item under `abc123`. -/
def dbSoftDeleted : Db :=
  { users := [userA],
    items := [{ id := 1, owner_user_id := 1, short_code := pystr "abc123",
                kind := pystr "note", content := pystr "x", created_at := 0,
                deleted_at := some 5 }],
    next_user_id := 2, next_item_id := 2, clock := 6 }

/-- Engine state whose dedup set holds the 1001 identifiers 0..1000. -/
def stBigProcessed : BotState :=
  { stShared with processed_updates := 0 :: (List.range 1000).map (fun n => n + 1) }

/-- Engine state whose dedup set holds the 1001 identifiers 1..1001. -/
def stBigFresh : BotState :=
  { stShared with processed_updates := (List.range 1001).map (fun n => n + 1) }

/-- State in which `userA` is in the `waiting_for_content` dialog. -/
def stWaiting : BotState :=
  { stShared with user_states := [(101, { state := pystr "waiting_for_content", data := {} })] }

/-- A `/save hello` message update from `userA`. -/
def updSave : Update :=
  { update_id := 10, message := some { from_id := 101, text := some (pystr "/save hello") },
    callback_query := none }

/-- The item `create_item` produces for `userA` saving `Buy milk` over `dbShared`. -/
def itemMilk : ItemRow :=
  { id := 2, owner_user_id := 1, short_code := pystr "Ab3xYz", kind := pystr "note",
    content := pystr "Buy milk", created_at := 1, deleted_at := none }

/-- `dbShared` after that creation. -/
def dbMilk : Db :=
  { dbShared with items := dbShared.items ++ [itemMilk], next_item_id := 3, clock := 2 }

/-- The item `create_item` produces for `userA` saving `hello` over `dbShared`. -/
def itemHello : ItemRow :=
  { id := 2, owner_user_id := 1, short_code := pystr "Ab3xYz", kind := pystr "note",
    content := pystr "hello", created_at := 1, deleted_at := none }

/-- `dbShared` after that creation. -/
def dbHello : Db :=
  { dbShared with items := dbShared.items ++ [itemHello], next_item_id := 3, clock := 2 }

/-! ## Helper lemmas -/

/-- Membership through descending insertion. -/
theorem mem_insertDesc {x i : ItemRow} :
    ∀ {l : List ItemRow}, x ∈ insertDesc i l → x = i ∨ x ∈ l
  | [], h => by simpa [insertDesc] using h
  | j :: rest, h => by
      simp only [insertDesc] at h
      split at h
      · rcases List.mem_cons.mp h with h1 | h1
        · exact Or.inl h1
        · exact Or.inr h1
      · rcases List.mem_cons.mp h with h1 | h1
        · exact Or.inr (List.mem_cons.mpr (Or.inl h1))
        · rcases mem_insertDesc h1 with h2 | h2
          · exact Or.inl h2
          · exact Or.inr (List.mem_cons.mpr (Or.inr h2))

/-- Membership through the descending sort. -/
theorem mem_sortByCreatedDesc {x : ItemRow} :
    ∀ {l : List ItemRow}, x ∈ sortByCreatedDesc l → x ∈ l
  | [], h => by simp [sortByCreatedDesc] at h
  | j :: rest, h => by
      simp only [sortByCreatedDesc] at h
      rcases mem_insertDesc h with h' | h'
      · simp [h']
      · exact List.mem_cons_of_mem _ (mem_sortByCreatedDesc h')

/-- `dict[k] = v` makes `k` map to `v`. -/
theorem dictGet_dictSet_self {α : Type} (l : List (Nat × α)) (k : Nat) (v : α) :
    dictGet (dictSet l k v) k = some v := by
  induction l with
  | nil => simp [dictSet, dictGet]
  | cons p r ih =>
      rcases p with ⟨k', v'⟩
      by_cases h : k' = k
      · simp [dictSet, dictGet, h]
      · simp [dictSet, dictGet, h, ih]

/-- `del dict[k]` leaves `k` unmapped. -/
theorem dictGet_dictRemove_self {α : Type} (l : List (Nat × α)) (k : Nat) :
    dictGet (dictRemove l k) k = none := by
  induction l with
  | nil => simp [dictRemove, dictGet]
  | cons p r ih =>
      rcases p with ⟨k', v'⟩
      by_cases h : k' = k
      · simpa [dictRemove, h] using ih
      · simpa [dictRemove, dictGet, h] using ih

/-- A successful short-code draw was reported available by the store. -/
theorem generate_available :
    ∀ {rng : List Chars} {db : Db} {code : Chars},
      generate_unique_short_code db rng = some code → is_short_code_available db code = true
  | [], _, _, h => by simp [generate_unique_short_code] at h
  | c :: rest, db, code, h => by
      simp only [generate_unique_short_code] at h
      split at h
      · cases h
        assumption
      · exact generate_available h

/-- A user found by Telegram id carries that Telegram id. -/
theorem telegram_id_of_get_by_telegram_id {db : Db} {tid : Nat} {u : UserRow}
    (h : get_by_telegram_id db tid = some u) : u.telegram_user_id = tid := by
  have := List.find?_some h
  simpa using this

/-- `Bool`-level dedup-set membership from propositional non-membership. -/
theorem contains_eq_false_of_not_mem {l : List Nat} {a : Nat} (h : a ∉ l) :
    l.contains a = false := by
  simp [List.elem_iff]
  exact h

/-- The identifier is in the set after `add`. -/
theorem mem_add_processed_self (st : BotState) (uid : Nat) :
    uid ∈ (add_processed st uid).processed_updates := by
  unfold add_processed
  split
  · next h => exact List.elem_iff.mp h
  · simp

/-! ## C2 — the availability check and soft-deleted codes -/

/-- C2: the spec requires that a soft-deleted short code is never reported
available, but `is_short_code_available` filters on `deleted_at IS NULL` and so
reports the soft-deleted code `abc123` as available; the generator would hand
that code out for reuse, which the `unique=True` column constraint on
`short_code` (app/models.py) would then reject at insert time. -/
theorem soft_deleted_code_reported_available :
    is_short_code_available dbSoftDeleted (pystr "abc123") = true ∧
    (dbSoftDeleted.items.filter (fun i => i.short_code = pystr "abc123")).length = 1 ∧
    generate_unique_short_code dbSoftDeleted [pystr "abc123"] = some (pystr "abc123") := by
  refine ⟨by decide, by decide, by decide⟩

/-! ## C8 — classifier boundary and ordered prefix tests -/

/-- The classifier's let-bound conditional chain, written out. -/
theorem detect_content_kind_eq (c : Chars) :
    detect_content_kind c =
      if (pyStartsWith (pyStrip c) (pystr "http://") ||
          pyStartsWith (pyStrip c) (pystr "https://")) = true then pystr "url"
      else if pyStartsWith (pyStrip c) (pystr "www.") = true then pystr "url"
      else if matchesBareDomain (pyStrip c) = true then pystr "url"
      else pystr "note" := rfl

/-- C8: the classifier's boundary examples hold, and on every input the result
is `url` exactly when one of the three ordered pattern tests (http(s) prefix,
www. prefix, bare domain with known suffix) matches the stripped input, `note`
otherwise. -/
theorem classifier_ordered_prefix_tests :
    detect_content_kind (pystr "https://example.com") = pystr "url" ∧
    detect_content_kind (pystr "hello world") = pystr "note" ∧
    detect_content_kind (pystr "example.com") = pystr "url" ∧
    detect_content_kind (pystr "example.comm") = pystr "note" ∧
    (∀ c : Chars, detect_content_kind c = pystr "url" ↔
      (pyStartsWith (pyStrip c) (pystr "http://") = true ∨
       pyStartsWith (pyStrip c) (pystr "https://") = true ∨
       pyStartsWith (pyStrip c) (pystr "www.") = true ∨
       matchesBareDomain (pyStrip c) = true)) ∧
    (∀ c : Chars, detect_content_kind c = pystr "url" ∨ detect_content_kind c = pystr "note") := by
  refine ⟨by decide, by decide, by decide, by decide, ?_, ?_⟩
  · intro c
    rw [detect_content_kind_eq]
    constructor
    · intro h
      split at h
      · next hc =>
          rcases (by simpa using hc : pyStartsWith (pyStrip c) (pystr "http://") = true ∨
              pyStartsWith (pyStrip c) (pystr "https://") = true) with hc | hc
          · exact Or.inl hc
          · exact Or.inr (Or.inl hc)
      · split at h
        · next hc => exact Or.inr (Or.inr (Or.inl hc))
        · split at h
          · next hc => exact Or.inr (Or.inr (Or.inr hc))
          · exact absurd h (by decide)
    · intro h
      rcases h with h | h | h | h <;> simp [h]
  · intro c
    rw [detect_content_kind_eq]
    split
    · exact Or.inl rfl
    · split
      · exact Or.inl rfl
      · split
        · exact Or.inl rfl
        · exact Or.inr rfl

end TinyVault

namespace TinyVault

/-! ## C9 — pruning of the processed-update set -/

/-- C9 counterexample: at dedup-check time with 1001 recorded identifiers, an
identifier that is already in the set short-circuits the check and no pruning
happens — the set still holds 1001 entries, not 500, refuting "whenever the
size exceeds the threshold at dedup-check time, it is pruned to exactly 500". -/
theorem dedup_prune_skipped_when_already_processed :
    cleanup_threshold < stBigProcessed.processed_updates.length ∧
    is_update_processed stBigProcessed 0 = (true, stBigProcessed) ∧
    (is_update_processed stBigProcessed 0).2.processed_updates.length = 1001 ∧
    ¬ (is_update_processed stBigProcessed 0).2.processed_updates.length = 500 := by
  have h : is_update_processed stBigProcessed 0 = (true, stBigProcessed) := rfl
  have hlen : stBigProcessed.processed_updates.length = 1001 := by
    simp [stBigProcessed]
  refine ⟨?_, h, ?_, ?_⟩
  · rw [hlen]; decide
  · rw [h, hlen]
  · rw [h, hlen]; decide

/-- C9 amended: when the dedup check runs on an identifier NOT yet in the set
and the set's size exceeds the threshold 1000, the check reports false and the
set is pruned to exactly 500 entries — the final segment of its enumeration
order (under the insertion-ordered embedding of the Python set, the 500 most
recently recorded identifiers). -/
theorem dedup_prune_keeps_last_500_when_new (st : BotState) (uid : Nat)
    (hnew : uid ∉ st.processed_updates)
    (hbig : cleanup_threshold < st.processed_updates.length) :
    (is_update_processed st uid).1 = false ∧
    (is_update_processed st uid).2.processed_updates.length = 500 ∧
    st.processed_updates =
      st.processed_updates.take (st.processed_updates.length - 500) ++
        (is_update_processed st uid).2.processed_updates := by
  have hc : st.processed_updates.contains uid = false := contains_eq_false_of_not_mem hnew
  have hb : 1000 < st.processed_updates.length := hbig
  have hre : is_update_processed st uid =
      (false, { st with processed_updates :=
        st.processed_updates.drop (st.processed_updates.length - 500) }) := by
    unfold is_update_processed cleanup_old_updates
    rw [hc]
    simp [cleanup_threshold, hb]
  rw [hre]
  refine ⟨rfl, ?_, ?_⟩
  · simp only [List.length_drop]
    omega
  · exact (List.take_append_drop _ _).symm

/-- C9 amended, checked concretely: identifiers 1..1001 recorded, identifier
2000 checked; the set shrinks to exactly 500 entries. -/
theorem dedup_prune_keeps_last_500_when_new_witness :
    2000 ∉ stBigFresh.processed_updates ∧
    cleanup_threshold < stBigFresh.processed_updates.length ∧
    (is_update_processed stBigFresh 2000).2.processed_updates.length = 500 :=
  have h1 : 2000 ∉ stBigFresh.processed_updates := by simp [stBigFresh]
  have h2 : cleanup_threshold < stBigFresh.processed_updates.length := by
    simp [stBigFresh, cleanup_threshold]
  ⟨h1, h2, (dedup_prune_keeps_last_500_when_new stBigFresh 2000 h1 h2).2.1⟩

/-! ## C10 — callback router never propagates, malformed page argument -/

/-- C10: for a known caller with a healthy store, the callback router returns a
result for EVERY payload string; on the recognized-prefix-but-malformed payload
`page_x` the branch body raises the int-parse error, which the router catches
as the generic handler-level error text with the main menu — distinct from the
unknown-action default. -/
theorem callback_router_catches_malformed_page (st : BotState) (tid : Nat) (user : UserRow)
    (hsf : st.store_fails = false)
    (hu : get_by_telegram_id st.db tid = some user) :
    (∀ payload : Chars, ∃ r : Reply × BotState, handle_callback_query st tid payload = .ok r) ∧
    handle_callback_query_body st user tid (pystr "page_x") = .error invalid_int_text ∧
    handle_callback_query st tid (pystr "page_x") =
      .ok ({ text := callback_error_text, keyboard := some main_menu_keyboard }, st) ∧
    callback_error_text ≠ unknown_action_text := by
  have hbody : handle_callback_query_body st user tid (pystr "page_x") =
      .error invalid_int_text := rfl
  refine ⟨?_, hbody, ?_, by decide⟩
  · intro payload
    cases hb : handle_callback_query_body st user tid payload with
    | error e =>
        exact ⟨({ text := callback_error_text, keyboard := some main_menu_keyboard }, st),
          by simp [handle_callback_query, hsf, hu, hb]⟩
    | ok r => exact ⟨r, by simp [handle_callback_query, hsf, hu, hb]⟩
  · simp [handle_callback_query, hsf, hu, hbody]

/-- C10, checked concretely for the registered caller 101. -/
theorem callback_router_catches_malformed_page_witness :
    stShared.store_fails = false ∧
    get_by_telegram_id stShared.db 101 = some userA ∧
    handle_callback_query stShared 101 (pystr "page_x") =
      .ok ({ text := callback_error_text, keyboard := some main_menu_keyboard }, stShared) :=
  ⟨rfl, rfl, (callback_router_catches_malformed_page stShared 101 userA rfl rfl).2.2.1⟩

end TinyVault

namespace TinyVault

/-! ## C3 — denial messages and existence leakage -/

/-- C3 counterexample: for registered caller 101 and code `abc123`, the reply
when the code names another user's item ("no permission") differs from the
reply when the code names nothing ("not found"), for `/get` and for `/del` —
the existence of another user's item IS distinguishable from non-existence,
refuting "the same generic denial text". -/
theorem get_del_denials_distinguish_existence :
    (handle_get_command stShared 101 [pystr "abc123"]).1.text = no_get_permission_text ∧
    (handle_get_command stNoItems 101 [pystr "abc123"]).1.text = not_found_text (pystr "abc123") ∧
    no_get_permission_text ≠ not_found_text (pystr "abc123") ∧
    (handle_delete_command stShared 101 [pystr "abc123"]).1.text = no_delete_permission_text ∧
    (handle_delete_command stNoItems 101 [pystr "abc123"]).1.text = not_found_text (pystr "abc123") ∧
    no_delete_permission_text ≠ not_found_text (pystr "abc123") :=
  ⟨by decide, by decide, by decide, by decide, by decide, by decide⟩

/-- C3 amended: for a known caller, `/get` and `/del` on an item owned by
someone else reply with a fixed permission-denial text, and on an absent code
with a not-found text echoing only the code; the two texts differ (so existence
is distinguishable), but neither reply contains item content and neither call
mutates any state. -/
theorem denial_replies_generic_and_content_free (st : BotState) (tid : Nat) (user : UserRow)
    (k : Chars)
    (hsf : st.store_fails = false)
    (hu : get_by_telegram_id st.db tid = some user) :
    (∀ item : ItemRow, get_item_by_short_code st.db (pyStrip k) = some item →
      item.owner_user_id ≠ user.id →
      handle_get_command st tid [k] =
        ({ text := no_get_permission_text, keyboard := some main_menu_keyboard }, st) ∧
      handle_delete_command st tid [k] =
        ({ text := no_delete_permission_text, keyboard := some main_menu_keyboard }, st)) ∧
    (get_item_by_short_code st.db (pyStrip k) = none →
      handle_get_command st tid [k] =
        ({ text := not_found_text (pyStrip k), keyboard := some main_menu_keyboard }, st) ∧
      handle_delete_command st tid [k] =
        ({ text := not_found_text (pyStrip k), keyboard := some main_menu_keyboard }, st)) := by
  constructor
  · intro item hitem howner
    constructor
    · simp [handle_get_command, validate_command_args, get_user_from_update, hsf, hu, hitem,
        howner]
    · simp [handle_delete_command, validate_command_args, get_user_from_update, hsf, hu, hitem,
        howner]
  · intro hnone
    constructor
    · simp [handle_get_command, validate_command_args, get_user_from_update, hsf, hu, hnone]
    · simp [handle_delete_command, validate_command_args, get_user_from_update, hsf, hu, hnone]

/-- C3 amended, checked concretely: caller 101 denied on `userB`'s item. -/
theorem denial_replies_generic_and_content_free_witness :
    get_item_by_short_code stShared.db (pyStrip (pystr "abc123")) = some itemB ∧
    itemB.owner_user_id ≠ userA.id ∧
    handle_get_command stShared 101 [pystr "abc123"] =
      ({ text := no_get_permission_text, keyboard := some main_menu_keyboard }, stShared) :=
  ⟨by decide, by decide,
   (((denial_replies_generic_and_content_free stShared 101 userA (pystr "abc123")
      rfl rfl).1 itemB (by decide) (by decide)).1)⟩

/-! ## C4 — content limits -/

/-- Dropping leading whitespace from a run of `a` characters changes nothing. -/
theorem dropWhile_isPyWs_replicate_a (n : Nat) :
    (List.replicate n 'a').dropWhile isPyWs = List.replicate n 'a' := by
  cases n with
  | zero => rfl
  | succ m =>
      rw [List.replicate_succ, List.dropWhile_cons]
      simp [(by decide : isPyWs 'a' = false)]

/-- Stripping a run of `a` characters changes nothing. -/
theorem pyStrip_replicate_a (n : Nat) :
    pyStrip (List.replicate n 'a') = List.replicate n 'a' := by
  unfold pyStrip
  rw [dropWhile_isPyWs_replicate_a, List.reverse_replicate, dropWhile_isPyWs_replicate_a,
    List.reverse_replicate]

/-- A non-empty run of at most 10 000 `a` characters passes the content
validator with no errors. -/
theorem validate_replicate_a (n : Nat) (h0 : n ≠ 0) (h2 : n ≤ 10000) :
    validate_item_content (List.replicate n 'a') none = { valid := true, errors := [] } := by
  obtain ⟨m, rfl⟩ := Nat.exists_eq_succ_of_ne_zero h0
  have hne : (List.replicate (m + 1) 'a').isEmpty = false := by
    rw [List.replicate_succ]
    rfl
  have hlen : ¬ ((List.replicate (m + 1) 'a').length > 10000) := by
    simp only [List.length_replicate]
    omega
  unfold validate_item_content
  rw [pyStrip_replicate_a, hne]
  simp [hlen]
  omega

/-- C4 counterexample: a 301-character note passes `validate_item_content` —
the service-level validator used by both save paths has no 300-character note
cap (that cap lives only in the unused `ItemBase` schema), refuting "rejects a
note of 301 characters". -/
theorem note_301_chars_accepted :
    (List.replicate 301 'a').length = 301 ∧
    (validate_item_content (List.replicate 301 'a') none).valid = true := by
  refine ⟨List.length_replicate 301 'a', ?_⟩
  rw [validate_replicate_a 301 (by norm_num) (by norm_num)]

/-- C4 amended: the validator caps content at 10 000 CHARACTERS regardless of
kind (so 10 001 ASCII characters, hence 10 001 bytes, are rejected), and
imposes no note-specific cap: notes of 300 and of 301 characters both pass. -/
theorem content_length_cap_characters :
    (∀ (c : Chars) (kind : Option Chars), 10000 < c.length →
        (validate_item_content c kind).valid = false) ∧
    (validate_item_content (List.replicate 300 'a') none).valid = true ∧
    (validate_item_content (List.replicate 301 'a') none).valid = true ∧
    (validate_item_content (List.replicate 10001 'a') none).valid = false := by
  have hgen : ∀ (c : Chars) (kind : Option Chars), 10000 < c.length →
      (validate_item_content c kind).valid = false := by
    intro c kind h
    unfold validate_item_content
    simp [h]
  refine ⟨hgen, ?_, ?_, hgen _ none (by rw [List.length_replicate]; norm_num)⟩
  · rw [validate_replicate_a 300 (by norm_num) (by norm_num)]
  · rw [validate_replicate_a 301 (by norm_num) (by norm_num)]

/-- C4 amended, checked concretely at the 10 001-character input. -/
theorem content_length_cap_characters_witness :
    10000 < (List.replicate 10001 'a').length ∧
    (validate_item_content (List.replicate 10001 'a') none).valid = false :=
  have h : 10000 < (List.replicate 10001 'a').length := by
    rw [List.length_replicate]
    norm_num
  ⟨h, content_length_cap_characters.1 _ none h⟩

end TinyVault

namespace TinyVault

/-! ## C6 — deletion requires confirmation -/

/-- Facts carried by a successful `get_by_short_code` lookup. -/
theorem get_by_short_code_props {db : Db} {code : Chars} {item : ItemRow}
    (h : get_by_short_code db code = some item) :
    item ∈ db.items ∧ item.short_code = code ∧ item.deleted_at = none := by
  have hp := List.find?_some h
  simp only [Bool.and_eq_true, decide_eq_true_eq] at hp
  exact ⟨List.mem_of_find?_eq_some h, hp.1, hp.2⟩

/-- A live row matching code and owner makes `soft_delete` report success. -/
theorem soft_delete_touched {db : Db} {code : Chars} {owner : Nat} {item : ItemRow}
    (hm : item ∈ db.items) (hc : item.short_code = code) (ho : item.owner_user_id = owner)
    (hd : item.deleted_at = none) :
    (soft_delete db code owner).1 = true := by
  simp only [soft_delete]
  rw [List.any_eq_true]
  exact ⟨item, hm, by simp [hc, ho, hd]⟩

/-- After `soft_delete code owner`, no live row of that owner carries the code. -/
theorem soft_delete_kills_code (db : Db) (code : Chars) (owner : Nat) (j : ItemRow)
    (hj : j ∈ (soft_delete db code owner).2.items)
    (hjowner : j.owner_user_id = owner) (hjlive : j.deleted_at = none) :
    j.short_code ≠ code := by
  simp only [soft_delete, List.mem_map] at hj
  rcases hj with ⟨i0, hi0mem, hi0eq⟩
  by_cases hhit : (decide (i0.short_code = code) && decide (i0.owner_user_id = owner) &&
      decide (i0.deleted_at = none)) = true
  · rw [if_pos hhit] at hi0eq
    rw [← hi0eq] at hjlive
    simp at hjlive
  · rw [if_neg hhit] at hi0eq
    subst hi0eq
    intro hcode
    exact hhit (by simp [hcode, hjowner, hjlive])

/-- C6: for a known caller owning the item named by `k`, `del k` leaves the
database and the dedup set untouched and only stores the `confirming_delete`
tag with `k` attached; the `confirm_delete_k` callback body performs the soft
delete, reports success, and afterwards no live item of the caller carries the
code, so it is absent from every subsequent `list` result. -/
theorem delete_requires_confirmation (st : BotState) (tid : Nat) (user : UserRow) (k : Chars)
    (hsf : st.store_fails = false)
    (hu : get_by_telegram_id st.db tid = some user)
    (item : ItemRow)
    (hitem : get_item_by_short_code st.db (pyStrip k) = some item)
    (howner : item.owner_user_id = user.id) :
    (handle_delete_command st tid [k]).2.db = st.db ∧
    (handle_delete_command st tid [k]).2.processed_updates = st.processed_updates ∧
    dictGet (handle_delete_command st tid [k]).2.user_states user.id =
      some { state := pystr "confirming_delete", data := { item_code := some (pyStrip k) } } ∧
    (confirm_delete_item st user (pyStrip k)).1.text =
      pystr "✅ Item `" ++ pyStrip k ++ pystr "` has been deleted successfully." ∧
    (∀ j ∈ get_user_items (confirm_delete_item st user (pyStrip k)).2.db user.id 50,
        j.short_code ≠ pyStrip k) := by
  have hdel : handle_delete_command st tid [k] =
      ({ text := delete_confirm_text (pyStrip k) item,
         keyboard := some (confirm_keyboard (pystr "delete") (some (pyStrip k))) },
       set_user_state st user.id (pystr "confirming_delete") { item_code := some (pyStrip k) }) := by
    simp [handle_delete_command, validate_command_args, get_user_from_update, hsf, hu, hitem,
      howner]
  obtain ⟨hmem, hcode, hlive⟩ := get_by_short_code_props hitem
  have hsd : (soft_delete st.db (pyStrip k) user.id).1 = true :=
    soft_delete_touched hmem hcode howner hlive
  have hconf : confirm_delete_item st user (pyStrip k) =
      ({ text := pystr "✅ Item `" ++ pyStrip k ++ pystr "` has been deleted successfully.",
         keyboard := some main_menu_keyboard },
       clear_user_state { st with db := (soft_delete st.db (pyStrip k) user.id).2 }
         user.telegram_user_id) := by
    simp [confirm_delete_item, delete_item, hsd]
  refine ⟨?_, ?_, ?_, ?_, ?_⟩
  · rw [hdel]; rfl
  · rw [hdel]; rfl
  · rw [hdel]
    exact dictGet_dictSet_self st.user_states user.id _
  · rw [hconf]
  · intro j hj
    rw [hconf] at hj
    have hj' : j ∈ get_by_owner_id (soft_delete st.db (pyStrip k) user.id).2 user.id 50 := hj
    unfold get_by_owner_id at hj'
    have hj1 := mem_sortByCreatedDesc (List.mem_of_mem_take hj')
    have hj2 := List.mem_filter.mp hj1
    obtain ⟨hjmem, hjpred⟩ := hj2
    simp only [Bool.and_eq_true, decide_eq_true_eq] at hjpred
    exact soft_delete_kills_code st.db (pyStrip k) user.id j hjmem hjpred.1 hjpred.2

/-- C6, checked concretely: `userB` deleting its own `abc123`. -/
theorem delete_requires_confirmation_witness :
    get_by_telegram_id stShared.db 202 = some userB ∧
    get_item_by_short_code stShared.db (pyStrip (pystr "abc123")) = some itemB ∧
    itemB.owner_user_id = userB.id ∧
    (handle_delete_command stShared 202 [pystr "abc123"]).2.db = stShared.db ∧
    (∀ j ∈ get_user_items
        (confirm_delete_item stShared userB (pyStrip (pystr "abc123"))).2.db userB.id 50,
        j.short_code ≠ pyStrip (pystr "abc123")) :=
  have h1 : get_by_telegram_id stShared.db 202 = some userB := by decide
  have h2 : get_item_by_short_code stShared.db (pyStrip (pystr "abc123")) = some itemB := by decide
  have h3 : itemB.owner_user_id = userB.id := by decide
  have hth := delete_requires_confirmation stShared 202 userB (pystr "abc123") rfl h1 itemB h2 h3
  ⟨h1, h2, h3, hth.1, hth.2.2.2.2⟩

end TinyVault

namespace TinyVault

/-! ## C7 — dialog save path and state clearing -/

/-- C7 counterexample: registered caller 101 in the `waiting_for_content`
dialog sends text that fails validation (empty); the reply is the validation
failure, and the conversation state entry is NOT cleared — it is still
`waiting_for_content` in the returned state, refuting "clearing state
regardless of outcome". -/
theorem awaiting_content_state_kept_on_invalid :
    handle_text_message stWaiting 101 [] =
      .ok ({ text := pystr "❌ Validation failed: Content cannot be empty",
             keyboard := some main_menu_keyboard }, stWaiting) ∧
    dictGet stWaiting.user_states 101 =
      some { state := pystr "waiting_for_content", data := {} } :=
  ⟨rfl, rfl⟩

/-- C7 amended: for a known caller in the `waiting_for_content` dialog, free
text is validated and the item created on success; the conversation state is
cleared ONLY on the successful-creation path — on validation failure the whole
state (conversation entry included) is returned unchanged. -/
theorem awaiting_content_clears_state_only_on_success (st : BotState) (tid : Nat)
    (user : UserRow) (d : StateData) (t : Chars)
    (hsf : st.store_fails = false)
    (hu : get_by_telegram_id st.db tid = some user)
    (hstate : dictGet st.user_states tid =
      some { state := pystr "waiting_for_content", data := d }) :
    ((validate_item_content t none).valid = false →
      handle_text_message st tid t =
        .ok ({ text := pystr "❌ Validation failed: " ++
                       List.intercalate (pystr ", ") (validate_item_content t none).errors,
               keyboard := some main_menu_keyboard }, st)) ∧
    (∀ (item : ItemRow) (db' : Db), (validate_item_content t none).valid = true →
      create_item st.db st.rng user.id t none = some (item, db') →
      handle_text_message st tid t =
        .ok ({ text := save_success_text t item, keyboard := some main_menu_keyboard },
             clear_user_state { st with db := db' } user.telegram_user_id) ∧
      dictGet (clear_user_state { st with db := db' } user.telegram_user_id).user_states
        user.telegram_user_id = none) := by
  have hget : get_user_state st tid = ({ state := pystr "waiting_for_content", data := d }, st) := by
    simp [get_user_state, hstate]
  have htm : handle_text_message st tid t = .ok (handle_save_content st user t) := by
    simp [handle_text_message, hget, hsf, hu]
  constructor
  · intro hval
    rw [htm]
    simp [handle_save_content, hval]
  · intro item db' hval hcreate
    rw [htm]
    constructor
    · simp [handle_save_content, hval, hcreate]
    · exact dictGet_dictRemove_self _ _

/-- C7 amended, checked concretely: caller 101 in `waiting_for_content` sends
`Buy milk`; the note is created and the conversation entry is gone. -/
theorem awaiting_content_clears_state_only_on_success_witness :
    (validate_item_content (pystr "Buy milk") none).valid = true ∧
    handle_text_message stWaiting 101 (pystr "Buy milk") =
      .ok ({ text := save_success_text (pystr "Buy milk") itemMilk,
             keyboard := some main_menu_keyboard },
           clear_user_state { stWaiting with db := dbMilk } userA.telegram_user_id) :=
  have hval : (validate_item_content (pystr "Buy milk") none).valid = true := by decide
  have hcreate : create_item stWaiting.db stWaiting.rng userA.id (pystr "Buy milk") none =
      some (itemMilk, dbMilk) := by decide
  ⟨hval,
   ((awaiting_content_clears_state_only_on_success stWaiting 101 userA {} (pystr "Buy milk")
      rfl rfl rfl).2 itemMilk dbMilk hval hcreate).1⟩

end TinyVault

namespace TinyVault

/-! ## C5 — save/get round trip -/

/-- C5: for a known caller, a successful `create_item` on content `c` stores
exactly `c` with the classifier's kind for `c` under the caller's id, the new
code immediately resolves to that item, and a subsequent `/get` of the returned
code by the same owner replies with the item detail text, which embeds the
content verbatim.  (`hclean` records that a generated short code carries no
surrounding whitespace, true of the source's alphanumeric draw alphabet.) -/
theorem save_get_round_trip (st : BotState) (tid : Nat) (user : UserRow) (c : Chars)
    (hsf : st.store_fails = false)
    (hu : get_by_telegram_id st.db tid = some user)
    (item : ItemRow) (db' : Db)
    (hcreate : create_item st.db st.rng user.id c none = some (item, db'))
    (hclean : pyStrip item.short_code = item.short_code) :
    item.content = c ∧
    item.kind = detect_content_kind c ∧
    item.owner_user_id = user.id ∧
    get_item_by_short_code db' item.short_code = some item ∧
    handle_get_command { st with db := db' } tid [item.short_code] =
      ({ text := item_detail_text item,
         keyboard := some (item_action_keyboard item.short_code) },
       { st with db := db' }) := by
  cases hg : generate_unique_short_code st.db st.rng with
  | none =>
      rw [create_item] at hcreate
      rw [hg] at hcreate
      exact absurd hcreate (by simp)
  | some code =>
      have havail := generate_available hg
      simp only [create_item, hg, Option.getD_none, repo_create_item, Option.some.injEq,
        Prod.mk.injEq] at hcreate
      obtain ⟨hitem, hdb⟩ := hcreate
      subst hitem
      subst hdb
      have hfindold :
          st.db.items.find? (fun i => i.short_code = code && i.deleted_at = none) = none := by
        simpa only [is_short_code_available, Option.isNone_iff_eq_none] using havail
      have hfound : get_item_by_short_code
          { st.db with
              items := st.db.items ++
                [{ id := st.db.next_item_id, owner_user_id := user.id, short_code := code,
                   kind := detect_content_kind c, content := c, created_at := st.db.clock,
                   deleted_at := none }]
              next_item_id := st.db.next_item_id + 1
              clock := st.db.clock + 1 } code =
          some { id := st.db.next_item_id, owner_user_id := user.id, short_code := code,
                 kind := detect_content_kind c, content := c, created_at := st.db.clock,
                 deleted_at := none } := by
        unfold get_item_by_short_code get_by_short_code
        rw [List.find?_append, hfindold]
        simp
      have hu' : get_by_telegram_id
          { st.db with
              items := st.db.items ++
                [{ id := st.db.next_item_id, owner_user_id := user.id, short_code := code,
                   kind := detect_content_kind c, content := c, created_at := st.db.clock,
                   deleted_at := none }]
              next_item_id := st.db.next_item_id + 1
              clock := st.db.clock + 1 } tid = some user := hu
      refine ⟨rfl, rfl, rfl, hfound, ?_⟩
      simp [handle_get_command, validate_command_args, get_user_from_update, hsf, hu', hclean,
        hfound]

/-- C5, checked concretely: `userA` saves `hello`, gets `Ab3xYz` back, and the
`/get` reply carries the stored content. -/
theorem save_get_round_trip_witness :
    create_item stShared.db stShared.rng userA.id (pystr "hello") none =
      some (itemHello, dbHello) ∧
    itemHello.content = pystr "hello" ∧
    itemHello.kind = detect_content_kind (pystr "hello") ∧
    get_item_by_short_code dbHello itemHello.short_code = some itemHello ∧
    handle_get_command { stShared with db := dbHello } 101 [itemHello.short_code] =
      ({ text := item_detail_text itemHello,
         keyboard := some (item_action_keyboard itemHello.short_code) },
       { stShared with db := dbHello }) :=
  have hcreate : create_item stShared.db stShared.rng userA.id (pystr "hello") none =
      some (itemHello, dbHello) := by decide
  have hth := save_get_round_trip stShared 101 userA (pystr "hello") rfl rfl itemHello dbHello
    hcreate (by decide)
  ⟨hcreate, hth.1, hth.2.1, hth.2.2.2.1, hth.2.2.2.2⟩

end TinyVault

namespace TinyVault

/-! ## C1 — idempotent recording of update identifiers -/

/-- With a healthy store, `/start` never raises. -/
theorem handle_start_command_ok (s : BotState) (h : s.store_fails = false) (tid : Nat) :
    ∃ r, handle_start_command s tid = .ok r := by
  unfold handle_start_command
  rw [if_neg (by simp [h])]
  exact ⟨_, rfl⟩

/-- With a healthy store, `/menu` never raises. -/
theorem handle_menu_command_ok (s : BotState) (h : s.store_fails = false) (tid : Nat) :
    ∃ r, handle_menu_command s tid = .ok r := by
  unfold handle_menu_command
  rw [if_neg (by simp [h])]
  cases get_by_telegram_id s.db tid <;> exact ⟨_, rfl⟩

/-- With a healthy store, `/cancel` never raises. -/
theorem handle_cancel_command_ok (s : BotState) (h : s.store_fails = false) (tid : Nat) :
    ∃ r, handle_cancel_command s tid = .ok r := by
  unfold handle_cancel_command
  rw [if_neg (by simp [h])]
  cases get_by_telegram_id s.db tid <;> exact ⟨_, rfl⟩

/-- With a healthy store, `/save` never raises. -/
theorem handle_save_command_ok (s : BotState) (h : s.store_fails = false) (tid : Nat)
    (args : List Chars) :
    ∃ r, handle_save_command s tid args = .ok r := by
  simp only [handle_save_command, h]
  repeat' split
  all_goals first | exact ⟨_, rfl⟩ | simp_all

/-- With a healthy store, command routing always returns a result. -/
theorem process_command_ok (s : BotState) (h : s.store_fails = false) (tid : Nat)
    (text : Chars) :
    ∃ r, process_command s tid text = .ok r := by
  simp only [process_command]
  repeat' split
  all_goals
    first
      | exact handle_start_command_ok _ h _
      | exact handle_menu_command_ok _ h _
      | exact handle_cancel_command_ok _ h _
      | exact handle_save_command_ok _ h _ _
      | exact ⟨_, rfl⟩

/-- With a healthy store, the dialog engine always returns a result. -/
theorem handle_text_message_ok (s : BotState) (h : s.store_fails = false) (tid : Nat)
    (text : Chars) :
    ∃ r, handle_text_message s tid text = .ok r := by
  have h0 : (get_user_state s tid).2.store_fails = false := by
    unfold get_user_state
    cases dictGet s.user_states tid <;> simpa using h
  simp only [handle_text_message]
  repeat' split
  all_goals first | exact ⟨_, rfl⟩ | simp_all

/-- The dedup check reports an unseen identifier as unprocessed. -/
theorem dedup_check_false_of_not_mem (st : BotState) (uid : Nat)
    (h : uid ∉ st.processed_updates) :
    (is_update_processed st uid).1 = false := by
  unfold is_update_processed
  rw [contains_eq_false_of_not_mem h]
  by_cases hl : st.processed_updates.length > cleanup_threshold <;> simp [hl]

/-- The dedup check never adds the checked identifier (pruning only drops). -/
theorem not_mem_after_dedup_check (st : BotState) (uid : Nat)
    (h : uid ∉ st.processed_updates) :
    uid ∉ (is_update_processed st uid).2.processed_updates := by
  by_cases hl : st.processed_updates.length > cleanup_threshold
  · have hre : (is_update_processed st uid).2.processed_updates =
        st.processed_updates.drop (st.processed_updates.length - 500) := by
      unfold is_update_processed cleanup_old_updates
      rw [contains_eq_false_of_not_mem h]
      simp [hl]
    rw [hre]
    intro hmem
    exact h (List.mem_of_mem_drop hmem)
  · have hre : (is_update_processed st uid).2 = st := by
      unfold is_update_processed
      rw [contains_eq_false_of_not_mem h]
      simp [hl]
    rw [hre]
    exact h

/-- The dedup check does not touch the store-health flag. -/
theorem dedup_check_store_fails (st : BotState) (uid : Nat) :
    (is_update_processed st uid).2.store_fails = st.store_fails := by
  unfold is_update_processed cleanup_old_updates
  repeat' split
  all_goals rfl

/-- On an unseen message update, the webhook processor runs the message path
on the post-dedup-check state. -/
theorem process_webhook_update_message (st : BotState) (u : Update) (m : MsgPayload)
    (hm : u.message = some m) (hcb : u.callback_query = none)
    (hnew : u.update_id ∉ st.processed_updates) :
    process_webhook_update st u =
      process_message (is_update_processed st u.update_id).2 u m := by
  have h1 : (is_update_processed st u.update_id).1 = false :=
    dedup_check_false_of_not_mem st u.update_id hnew
  simp [process_webhook_update, hm, hcb, h1]

/-- On an already-recorded update, the webhook processor replies
`ignored("Already processed")` and leaves the whole state untouched. -/
theorem process_webhook_update_replay (st : BotState) (u : Update) (m : MsgPayload)
    (hm : u.message = some m)
    (hmem : u.update_id ∈ st.processed_updates) :
    process_webhook_update st u =
      ({ status := pystr "ignored", reason := some (pystr "Already processed"),
         update_id := some u.update_id }, st) := by
  simp [process_webhook_update, is_update_processed, hm, hmem]

/-- A failing user store makes the message path return `status=error` with the
state unchanged (the identifier is not recorded). -/
theorem process_message_store_fails (s : BotState) (u : Update) (m : MsgPayload)
    (h : s.store_fails = true) :
    process_message s u m =
      ({ status := pystr "error", error := some store_error_text,
         update_id := some u.update_id }, s) := by
  simp [process_message, h]

/-- With a healthy store, the message path routes successfully and records the
identifier in the final state. -/
theorem process_message_routed_ok (s : BotState) (u : Update) (m : MsgPayload)
    (h : s.store_fails = false) :
    ∃ (reply : Reply) (st2 : BotState),
      process_message s u m =
        ({ status := pystr "processed", rtype := some (pystr "message"),
           text := some (m.text.getD []),
           command := if pyStartsWith (m.text.getD []) (pystr "/") = true
             then some ((pySplitWs (m.text.getD [])).headD []) else none,
           response_text := some reply.text, keyboard := reply.keyboard,
           user_id := some (create_or_update_user s.db m.from_id).1.id,
           update_id := some u.update_id }, add_processed st2 u.update_id) := by
  by_cases ht : pyStartsWith (m.text.getD []) (pystr "/") = true
  · obtain ⟨⟨reply, st2⟩, hr⟩ :=
      process_command_ok
        { db := (create_or_update_user s.db m.from_id).2,
          processed_updates := s.processed_updates, user_states := s.user_states,
          rng := s.rng, store_fails := false } rfl m.from_id (m.text.getD [])
    refine ⟨reply, st2, ?_⟩
    simp only [process_message, h, ht]
    simp [hr]
  · obtain ⟨⟨reply, st2⟩, hr⟩ :=
      handle_text_message_ok
        { db := (create_or_update_user s.db m.from_id).2,
          processed_updates := s.processed_updates, user_states := s.user_states,
          rng := s.rng, store_fails := false } rfl m.from_id (m.text.getD [])
    refine ⟨reply, st2, ?_⟩
    simp only [process_message, h, ht]
    simp [hr]

/-- C1: on a message update whose identifier is unseen, the webhook processor
ends in `processed` or `error`; the identifier ends up recorded exactly in the
`processed` case; and after a `processed` run, resubmitting the very same
update returns `ignored("Already processed")` with the state unchanged — so a
sequential double submission performs the side effects of a single run, while a
routing exception leaves the identifier unrecorded for a later retry. -/
theorem update_recorded_iff_routing_succeeds (st : BotState) (u : Update) (m : MsgPayload)
    (hm : u.message = some m) (hcb : u.callback_query = none)
    (hnew : u.update_id ∉ st.processed_updates) :
    ((process_webhook_update st u).1.status = pystr "processed" ∨
     (process_webhook_update st u).1.status = pystr "error") ∧
    ((process_webhook_update st u).1.status = pystr "processed" →
      u.update_id ∈ (process_webhook_update st u).2.processed_updates) ∧
    ((process_webhook_update st u).1.status = pystr "error" →
      u.update_id ∉ (process_webhook_update st u).2.processed_updates) ∧
    ((process_webhook_update st u).1.status = pystr "processed" →
      process_webhook_update (process_webhook_update st u).2 u =
        ({ status := pystr "ignored", reason := some (pystr "Already processed"),
           update_id := some u.update_id }, (process_webhook_update st u).2)) := by
  have hred := process_webhook_update_message st u m hm hcb hnew
  have hnew1 : u.update_id ∉ (is_update_processed st u.update_id).2.processed_updates :=
    not_mem_after_dedup_check st u.update_id hnew
  by_cases hsf : (is_update_processed st u.update_id).2.store_fails = true
  · have hpm := process_message_store_fails (is_update_processed st u.update_id).2 u m hsf
    rw [hred, hpm]
    refine ⟨Or.inr rfl, ?_, ?_, ?_⟩
    · intro hcontr
      have hne : pystr "error" ≠ pystr "processed" := by decide
      exact absurd hcontr hne
    · intro _
      exact hnew1
    · intro hcontr
      have hne : pystr "error" ≠ pystr "processed" := by decide
      exact absurd hcontr hne
  · have hsf' : (is_update_processed st u.update_id).2.store_fails = false :=
      Bool.eq_false_iff.mpr hsf
    obtain ⟨reply, st2, hpm⟩ :=
      process_message_routed_ok (is_update_processed st u.update_id).2 u m hsf'
    rw [hred, hpm]
    refine ⟨Or.inl rfl, ?_, ?_, ?_⟩
    · intro _
      exact mem_add_processed_self st2 u.update_id
    · intro hcontr
      have hne : pystr "processed" ≠ pystr "error" := by decide
      exact absurd hcontr hne
    · intro _
      exact process_webhook_update_replay (add_processed st2 u.update_id) u m hm
        (mem_add_processed_self st2 u.update_id)

/-- C1, checked concretely: `userA` submits `/save hello` twice with update id
10; the first run is `processed` and records 10, the second run is
`ignored("Already processed")` and leaves everything unchanged. -/
theorem update_recorded_iff_routing_succeeds_witness :
    updSave.update_id ∉ stShared.processed_updates ∧
    updSave.update_id ∈ (process_webhook_update stShared updSave).2.processed_updates ∧
    process_webhook_update (process_webhook_update stShared updSave).2 updSave =
      ({ status := pystr "ignored", reason := some (pystr "Already processed"),
         update_id := some updSave.update_id }, (process_webhook_update stShared updSave).2) :=
  have h0 : updSave.update_id ∉ stShared.processed_updates := by
    simp [stShared, updSave]
  have hth := update_recorded_iff_routing_succeeds stShared updSave
    { from_id := 101, text := some (pystr "/save hello") } rfl rfl h0
  have hst : (process_webhook_update stShared updSave).1.status = pystr "processed" := by decide
  ⟨h0, hth.2.1 hst, hth.2.2.2 hst⟩

end TinyVault
